import Mathlib

/-!
Verification of the GAP session manager (`gap_mcp/gap_runner.py`).

The Python module is embedded shallowly:

* pure helpers (`_contains_blocked`, `_has_error`, `find_gap_executable`,
  the `timeout or default_timeout` idiom) become Lean functions;
* the stateful runner becomes explicit state passing over a `Session`
  record, with the stdout queue modelled as a list of timed events
  (`QEvent`): each event carries the waiting time before the line (or the
  end-of-stream marker `none`) becomes available, so that the per-`get`
  timeout of `queue.Queue.get(timeout=t)` is reflected faithfully;
* operations that may raise (`_start`, and `execute`/`reset` when a
  restart fails) return `Except`/a dedicated outcome type.
-/

namespace GapMcp

/-- The Python `needle in haystack` substring test on strings. -/
def pyIn (needle haystack : String) : Bool :=
  decide (List.IsInfix needle.data haystack.data)

/-- The Python `str.strip()`: remove whitespace from both ends. -/
def pyStrip (s : String) : String :=
  String.mk (((s.data.dropWhile Char.isWhitespace).reverse.dropWhile Char.isWhitespace).reverse)

/-- The Python `line.rstrip("\n")`: remove trailing newline characters. -/
def pyRstripNewline (s : String) : String :=
  String.mk ((s.data.reverse.dropWhile (fun c => c = '\n')).reverse)

/-- Python truthiness for an optional string: `None` and `""` are falsy. -/
def truthyStr : Option String → Option String
  | none => none
  | some s => if s = "" then none else some s

/-- The Python `timeout or self.default_timeout` (`None` and `0` are falsy). -/
def pyOrNat (timeout : Option Nat) (dflt : Nat) : Nat :=
  match timeout with
  | none => dflt
  | some n => if n = 0 then dflt else n

/-- `SENTINEL = "__GAPDONE__"`. -/
def SENTINEL : String := "__GAPDONE__"

/-- `SENTINEL_CMD`: the GAP command printing the sentinel (the `\n` inside the
quotes is the two-character GAP escape, the final one a real newline). -/
def SENTINEL_CMD : String := "Print(\"" ++ (SENTINEL ++ "\\n\");\n")

/-- `ERROR_PATTERNS`: GAP error signatures looked up in the combined output. -/
def ERROR_PATTERNS : List String :=
  ["Error,", "Syntax error:", "Variable: \x27", "no method found", "user interrupt"]

/-- `BLOCKED_PATTERNS`: dangerous GAP commands rejected by the filter. -/
def BLOCKED_PATTERNS : List String :=
  ["QUIT", "quit", "Exec(", "Process(", "IO_", "Filename("]

/-- The message attached to a filtered command, built around the blocked pattern. -/
def BLOCKED_MSG (pattern : String) : String :=
  "Blocked pattern \x27" ++
    (pattern ++ "\x27 found in code. Use gap_reset() to restart the session instead of QUIT.")

/-- The message of the `TimeoutError` raised by `_send_sentinel`. -/
def TIMEOUT_MSG (t : Nat) : String :=
  "GAP did not respond within " ++
    (toString t ++
      "s. The computation may be too large; try gap_reset() and use a smaller input, or increase the timeout parameter.")

/-- The message of the `RuntimeError` raised when the end-of-stream marker is seen. -/
def TERMINATED_MSG : String := "GAP process terminated unexpectedly."

/-- The message of the `FileNotFoundError` raised by `find_gap_executable`. -/
def GAP_NOT_FOUND_MSG : String :=
  "GAP executable not found. " ++
    "Install GAP or set the GAP_EXECUTABLE environment variable to the full path of the gap binary."

/-- `_contains_blocked`: first blocked pattern occurring in `code`, if any. -/
def _contains_blocked (code : String) : Option String :=
  BLOCKED_PATTERNS.find? (fun pattern => pyIn pattern code)

/-- `_has_error`: scan `stdout + "\n" + stderr` for an error signature and
return the stripped combined text when one is found. -/
def _has_error (stdout stderr : String) : Option String :=
  match ERROR_PATTERNS.find? (fun pattern => pyIn pattern (stdout ++ "\n" ++ stderr)) with
  | some _ => some (pyStrip (stdout ++ "\n" ++ stderr))
  | none => none

/-- The host environment consulted by executable resolution. -/
structure Env where
  home : String
  whichGap : Option String
  gapExecutableEnv : Option String
  isFile : String → Bool
  isExec : String → Bool

/-- The fixed candidate install locations (`~` expanded against the home directory). -/
def gapCandidates (env : Env) : List String :=
  [env.home ++ "/opt/gap/gap", "/usr/local/bin/gap", "/usr/bin/gap", "/opt/homebrew/bin/gap"]

/-- `find_gap_executable`: `shutil.which("gap")` first, then the candidate list,
each candidate checked with `os.path.isfile` and `os.access(..., X_OK)`. -/
def find_gap_executable (env : Env) : Except String String :=
  match truthyStr env.whichGap with
  | some p => Except.ok p
  | none =>
    match (gapCandidates env).find? (fun path => env.isFile path && env.isExec path) with
    | some p => Except.ok p
    | none => Except.error GAP_NOT_FOUND_MSG

/-- The resolution in `GAPRunner.__init__`:
`gap_executable or os.environ.get("GAP_EXECUTABLE") or find_gap_executable()`. -/
def resolve_executable (gap_executable : Option String) (env : Env) : Except String String :=
  match truthyStr gap_executable with
  | some g => Except.ok g
  | none =>
    match truthyStr env.gapExecutableEnv with
    | some e => Except.ok e
    | none => find_gap_executable env

/-- One stdout-queue observation: the line (or end-of-stream marker `none`)
becomes available `delay` time units after the previous `get` returned. -/
structure QEvent where
  delay : Nat
  item : Option String
deriving DecidableEq

/-- Outcome of the `_send_sentinel` read loop, with the accumulated lines,
the unconsumed queue events and the total time spent waiting on the queue. -/
inductive SentinelResult where
  | ok (lines : List String) (rest : List QEvent) (elapsed : Nat)
  | timedOut (elapsed : Nat)
  | terminated (elapsed : Nat)
deriving DecidableEq

/-- The read loop of `_send_sentinel` with resolved timeout `t`: each
`self._stdout_queue.get(timeout=t)` waits at most `t` for the next event. -/
def sendSentinelLoop (t : Nat) : List QEvent → SentinelResult
  | [] => SentinelResult.timedOut t
  | e :: rest =>
    if t < e.delay then SentinelResult.timedOut t
    else
      match e.item with
      | none => SentinelResult.terminated e.delay
      | some raw =>
        if pyRstripNewline raw = SENTINEL then SentinelResult.ok [] rest e.delay
        else
          match sendSentinelLoop t rest with
          | SentinelResult.ok ls r el => SentinelResult.ok (pyRstripNewline raw :: ls) r (e.delay + el)
          | SentinelResult.timedOut el => SentinelResult.timedOut (e.delay + el)
          | SentinelResult.terminated el => SentinelResult.terminated (e.delay + el)

/-- `_send_sentinel`: resolve `t = timeout or self.default_timeout`, then loop. -/
def send_sentinel (dflt : Nat) (timeout : Option Nat) (events : List QEvent) : SentinelResult :=
  sendSentinelLoop (pyOrNat timeout dflt) events

/-- `_drain_stderr`, list part: `get_nowait` until the queue is empty or the
end-of-stream marker is hit, stripping trailing newlines. -/
def drainStderrLines : List (Option String) → List String
  | [] => []
  | none :: _ => []
  | some l :: rest => pyRstripNewline l :: drainStderrLines rest

/-- `_drain_stderr`: join the currently available stderr lines. -/
def _drain_stderr (avail : List (Option String)) : String :=
  String.intercalate "\n" (drainStderrLines avail)

/-- The process handle: `self._process is None`, a live child, or a child
whose `poll()` reports an exit status. -/
inductive ProcState where
  | noProcess
  | running
  | exited
deriving DecidableEq

/-- The runner state. `generation` counts `_start` calls: queues and reader
threads are replaced as a unit on each restart, so a bumped generation means
fresh queues/threads. `stdinLog` records the writes to the stdin of the
current child (the graceful `QUIT;` that `close` sends to the discarded
child is not tracked, as that child is gone). -/
structure Session where
  defaultTimeout : Nat
  proc : ProcState
  generation : Nat
  stdinLog : List String
deriving DecidableEq

/-- The result dict of `execute`/`reset`. -/
structure CommandResult where
  success : Bool
  output : String
  error : Option String
deriving DecidableEq

/-- `close`: terminate the child (gracefully or by force) and drop the handle. -/
def close (s : Session) : Session :=
  { s with proc := ProcState.noProcess }

/-- The state produced by a successful `_start`: live child, fresh queues and
reader threads (new generation), stdin holding only the handshake sentinel. -/
def startedSession (s : Session) : Session :=
  { s with proc := ProcState.running, generation := s.generation + 1,
           stdinLog := [SENTINEL_CMD] }

/-- `_start`: spawn the child, fresh queues/readers, then the startup
handshake `_send_sentinel(timeout=30)`; a failed handshake raises. -/
def start (s : Session) (handshake : List QEvent) : Except String Session :=
  match send_sentinel s.defaultTimeout (some 30) handshake with
  | SentinelResult.ok _ _ _ => Except.ok (startedSession s)
  | SentinelResult.timedOut _ => Except.error (TIMEOUT_MSG 30)
  | SentinelResult.terminated _ => Except.error TERMINATED_MSG

/-- `reset`: `close` then `_start`, then the fixed success result; a failure
of `_start` propagates. -/
def reset (s : Session) (handshake : List QEvent) : Except String (CommandResult × Session) :=
  match start (close s) handshake with
  | Except.ok s2 =>
    Except.ok ({ success := true, output := "GAP session reset.", error := none }, s2)
  | Except.error e => Except.error e

/-- The oracle for one `execute` call: stdout-queue events seen by
`_send_sentinel`, the stderr lines currently available to `_drain_stderr`,
and the handshake events of a restart performed at entry or after a timeout. -/
structure World where
  stdoutEvents : List QEvent
  stderrAvail : List (Option String)
  entryHandshake : List QEvent
  restartHandshake : List QEvent
deriving DecidableEq

/-- Outcome of `execute`: a returned result dict with the new state, or a
propagated exception. -/
inductive ExecOutcome where
  | returned (r : CommandResult) (s : Session)
  | raised (msg : String)
deriving DecidableEq

/-- The session after `execute` wrote `code.strip() + "\n"` and (inside
`_send_sentinel`) the sentinel command to the stdin of the child. -/
def afterWrite (s : Session) (code : String) : Session :=
  { s with stdinLog := s.stdinLog ++ [pyStrip code ++ "\n", SENTINEL_CMD] }

/-- The result built on the sentinel path of `execute`:
`output = "\n".join(lines).strip()`, stderr drained non-blockingly,
`success = error is None`. -/
def successResult (lines : List String) (avail : List (Option String)) : CommandResult :=
  { success := (_has_error (pyStrip (String.intercalate "\n" lines)) (_drain_stderr avail)).isNone,
    output := pyStrip (String.intercalate "\n" lines),
    error := _has_error (pyStrip (String.intercalate "\n" lines)) (_drain_stderr avail) }

/-- `GAPRunner.execute`: filter, entry liveness check (lazy restart), write
the command, await the sentinel, and convert the outcome to a result dict.
A timeout tears the child down and restarts it; an end-of-stream marker
drops the handle without restarting. -/
def execute (s : Session) (code : String) (timeout : Option Nat) (w : World) : ExecOutcome :=
  match _contains_blocked code with
  | some blocked =>
    ExecOutcome.returned
      { success := false, output := "", error := some (BLOCKED_MSG blocked) } s
  | none =>
    match (if s.proc = ProcState.running then Except.ok s else start s w.entryHandshake) with
    | Except.error e => ExecOutcome.raised e
    | Except.ok s1 =>
      match send_sentinel s1.defaultTimeout timeout w.stdoutEvents with
      | SentinelResult.timedOut _ =>
        match start (close (afterWrite s1 code)) w.restartHandshake with
        | Except.ok s3 =>
          ExecOutcome.returned
            { success := false, output := "",
              error := some (TIMEOUT_MSG (pyOrNat timeout s1.defaultTimeout)) } s3
        | Except.error e => ExecOutcome.raised e
      | SentinelResult.terminated _ =>
        ExecOutcome.returned
          { success := false, output := "", error := some TERMINATED_MSG }
          { afterWrite s1 code with proc := ProcState.noProcess }
      | SentinelResult.ok lines _ _ =>
        ExecOutcome.returned (successResult lines w.stderrAvail) (afterWrite s1 code)

/-- A live session used as a concrete input in witnesses. -/
def sampleSession : Session :=
  { defaultTimeout := 60, proc := ProcState.running, generation := 1, stdinLog := [] }

/-- A queue event delivering the sentinel line immediately. -/
def okEvent : QEvent := { delay := 0, item := some "__GAPDONE__\n" }

/-- A world whose every queue immediately yields the sentinel. -/
def sampleWorld : World :=
  { stdoutEvents := [okEvent], stderrAvail := [], entryHandshake := [okEvent],
    restartHandshake := [okEvent] }

/-- A world whose stdout queue yields an error line and then the sentinel. -/
def errorWorld : World :=
  { stdoutEvents := [{ delay := 0, item := some "Error, oops\n" }, okEvent],
    stderrAvail := [], entryHandshake := [okEvent], restartHandshake := [okEvent] }

/-- A world whose stdout queue never yields anything (timeout). -/
def timeoutWorld : World :=
  { stdoutEvents := [], stderrAvail := [], entryHandshake := [okEvent],
    restartHandshake := [okEvent] }

/-- A world whose stdout queue yields the end-of-stream marker immediately. -/
def termWorld : World :=
  { stdoutEvents := [{ delay := 0, item := none }], stderrAvail := [],
    entryHandshake := [okEvent], restartHandshake := [okEvent] }

/-- A world delivering one line per time unit, then the sentinel. -/
def slowWorld : World :=
  { stdoutEvents := [{ delay := 1, item := some "a\n" }, { delay := 1, item := some "b\n" },
      { delay := 1, item := some "__GAPDONE__\n" }],
    stderrAvail := [], entryHandshake := [], restartHandshake := [] }

/-- The session left behind by an unexpected termination during `execute`. -/
def deadSession : Session :=
  { afterWrite sampleSession "1;" with proc := ProcState.noProcess }

/-- An environment with nothing installed and no configuration. -/
def envBare : Env :=
  { home := "/home/u", whichGap := none, gapExecutableEnv := none,
    isFile := fun _ => false, isExec := fun _ => false }

/-- An environment configured through the environment variable only. -/
def envVar : Env :=
  { home := "/home/u", whichGap := none, gapExecutableEnv := some "/env/gap",
    isFile := fun _ => false, isExec := fun _ => false }

/-- An environment where `which gap` succeeds. -/
def envWhich : Env :=
  { home := "/home/u", whichGap := some "/which/gap", gapExecutableEnv := none,
    isFile := fun _ => false, isExec := fun _ => false }

/-- An environment where only the conventional location `/usr/bin/gap` exists. -/
def envCandidate : Env :=
  { home := "/home/u", whichGap := none, gapExecutableEnv := none,
    isFile := fun p => p == "/usr/bin/gap", isExec := fun p => p == "/usr/bin/gap" }

theorem isInfix_append_right {l m : List Char} (h : List.IsInfix l m) (n : List Char) :
    List.IsInfix l (m ++ n) := by
  rcases h with ⟨u, v, huv⟩
  exact ⟨u, v ++ n, by rw [← huv]; simp⟩

theorem pyIn_eq_true_iff {p s : String} : pyIn p s = true ↔ List.IsInfix p.data s.data := by
  simp [pyIn]

theorem pyIn_append_left {p a : String} (b : String) (h : List.IsInfix p.data a.data) :
    pyIn p (a ++ b) = true := by
  rw [pyIn_eq_true_iff, String.data_append]
  exact isInfix_append_right h _

theorem blocked_msg_mentions (q : String) : pyIn "Blocked" (BLOCKED_MSG q) = true := by
  unfold BLOCKED_MSG
  exact pyIn_append_left _ (by decide)

theorem timeout_msg_mentions (t : Nat) : pyIn "did not respond" (TIMEOUT_MSG t) = true := by
  unfold TIMEOUT_MSG
  exact pyIn_append_left _ (by decide)

theorem start_ok_eq {s : Session} {hs : List QEvent} {s2 : Session}
    (h : start s hs = Except.ok s2) : s2 = startedSession s := by
  unfold start at h
  split at h
  · exact (Except.ok.inj h).symm
  · exact absurd h (by simp)
  · exact absurd h (by simp)

theorem execute_blocked_eq {code q : String} (s : Session) (timeout : Option Nat)
    (w : World) (hq : _contains_blocked code = some q) :
    execute s code timeout w =
      ExecOutcome.returned { success := false, output := "", error := some (BLOCKED_MSG q) } s := by
  unfold execute
  rw [hq]

theorem execute_ok_eq {s : Session} {code : String} {timeout : Option Nat} {w : World}
    {lines : List String} {rest : List QEvent} {el : Nat}
    (hb : _contains_blocked code = none) (hp : s.proc = ProcState.running)
    (hsen : send_sentinel s.defaultTimeout timeout w.stdoutEvents =
      SentinelResult.ok lines rest el) :
    execute s code timeout w =
      ExecOutcome.returned (successResult lines w.stderrAvail) (afterWrite s code) := by
  unfold execute
  rw [hb, if_pos hp]
  simp only [hsen]

theorem execute_terminated_eq {s : Session} {code : String} {timeout : Option Nat} {w : World}
    {el : Nat}
    (hb : _contains_blocked code = none) (hp : s.proc = ProcState.running)
    (hsen : send_sentinel s.defaultTimeout timeout w.stdoutEvents =
      SentinelResult.terminated el) :
    execute s code timeout w =
      ExecOutcome.returned
        { success := false, output := "", error := some TERMINATED_MSG }
        { afterWrite s code with proc := ProcState.noProcess } := by
  unfold execute
  rw [hb, if_pos hp]
  simp only [hsen]

theorem execute_timeout_eq {s : Session} {code : String} {timeout : Option Nat} {w : World}
    {el : Nat} {hl : List String} {hrest : List QEvent} {hel : Nat}
    (hb : _contains_blocked code = none) (hp : s.proc = ProcState.running)
    (hsen : send_sentinel s.defaultTimeout timeout w.stdoutEvents = SentinelResult.timedOut el)
    (hrs : send_sentinel s.defaultTimeout (some 30) w.restartHandshake =
      SentinelResult.ok hl hrest hel) :
    execute s code timeout w =
      ExecOutcome.returned
        { success := false, output := "",
          error := some (TIMEOUT_MSG (pyOrNat timeout s.defaultTimeout)) }
        (startedSession (close (afterWrite s code))) := by
  unfold execute
  rw [hb, if_pos hp]
  simp only [hsen]
  unfold start
  simp only [close, afterWrite, hrs]

theorem success_iff_error (lines : List String) (avail : List (Option String)) :
    ((successResult lines avail).success = false ↔ (successResult lines avail).error ≠ none) := by
  simp only [successResult]
  cases _has_error (pyStrip (String.intercalate "\n" lines)) (_drain_stderr avail) <;> simp

/-- Claim C1: every result returned by `execute` (filter-blocked, timeout,
unexpected-termination, engine-error and success paths alike) and every
result returned by `reset` satisfies: `success` is `false` iff `error` is
non-null. -/
theorem C1_success_iff_error_nonnull :
    (∀ (s : Session) (code : String) (timeout : Option Nat) (w : World)
        (r : CommandResult) (s2 : Session),
        execute s code timeout w = ExecOutcome.returned r s2 →
        (r.success = false ↔ r.error ≠ none)) ∧
    (∀ (s : Session) (hs : List QEvent) (r : CommandResult) (s2 : Session),
        reset s hs = Except.ok (r, s2) →
        (r.success = false ↔ r.error ≠ none)) := by
  constructor
  · intro s code timeout w r s2 hr
    unfold execute at hr
    split at hr
    · cases hr; simp
    · split at hr
      · exact absurd hr (by simp)
      · split at hr
        · split at hr
          · cases hr; simp
          · exact absurd hr (by simp)
        · cases hr; simp
        · cases hr
          exact success_iff_error _ _
  · intro s hs r s2 hr
    unfold reset at hr
    split at hr
    · cases hr; simp
    · exact absurd hr (by simp)

/-- Witness for C1: the blocked command `"QUIT;"` returns a result with
`success = false` and a non-null error. -/
theorem C1_witness :
    (({ success := false, output := "",
        error := some (BLOCKED_MSG "QUIT") } : CommandResult).success = false ↔
      ({ success := false, output := "",
          error := some (BLOCKED_MSG "QUIT") } : CommandResult).error ≠ none) :=
  C1_success_iff_error_nonnull.1 sampleSession "QUIT;" none sampleWorld _ sampleSession rfl

/-- Claim C2: for every deny-listed pattern, any command containing it makes
the filter report a match, and `execute` then returns `success = false`,
`output = ""` and an error mentioning "Blocked", with the session state (and
hence the subprocess stdin log, process handle, queues and reader threads)
completely unchanged. -/
theorem C2_filter_blocks :
    ∀ (s : Session) (code : String) (timeout : Option Nat) (w : World),
      (∀ p, p ∈ BLOCKED_PATTERNS → pyIn p code = true →
        (_contains_blocked code).isSome = true) ∧
      (∀ q, _contains_blocked code = some q →
        execute s code timeout w =
          ExecOutcome.returned
            { success := false, output := "", error := some (BLOCKED_MSG q) } s ∧
        pyIn "Blocked" (BLOCKED_MSG q) = true) := by
  intro s code timeout w
  constructor
  · intro p hp hpy
    unfold _contains_blocked
    simp only [List.find?_isSome]
    exact ⟨p, hp, hpy⟩
  · intro q hq
    exact ⟨execute_blocked_eq s timeout w hq, blocked_msg_mentions q⟩

/-- Witness for C2: `execute("QUIT;")` is rejected with a "Blocked" error and
leaves the session untouched. -/
theorem C2_witness :
    (_contains_blocked "QUIT;").isSome = true ∧
    (execute sampleSession "QUIT;" none sampleWorld =
      ExecOutcome.returned
        { success := false, output := "", error := some (BLOCKED_MSG "QUIT") } sampleSession ∧
     pyIn "Blocked" (BLOCKED_MSG "QUIT") = true) :=
  ⟨(C2_filter_blocks sampleSession "QUIT;" none sampleWorld).1 "QUIT" (by decide) (by decide),
   (C2_filter_blocks sampleSession "QUIT;" none sampleWorld).2 "QUIT" (by decide)⟩

/-- Claim C9: a `timeout` of `None` or `0` makes the stdout-queue wait use
the default timeout of the runner, and `execute` behaves identically for
`timeout = 0` and `timeout = None`: a zero-second timeout cannot actually be
requested through the public interface. -/
theorem C9_zero_timeout_defaults :
    (∀ (dflt : Nat) (events : List QEvent),
      send_sentinel dflt none events = sendSentinelLoop dflt events ∧
      send_sentinel dflt (some 0) events = sendSentinelLoop dflt events) ∧
    (∀ (s : Session) (code : String) (w : World),
      execute s code (some 0) w = execute s code none w) := by
  constructor
  · intro dflt events
    exact ⟨rfl, rfl⟩
  · intro s code w
    unfold execute
    simp only [send_sentinel, pyOrNat, reduceIte]

/-- Claim C10: `reset` never returns a failure result — a normal return is
exactly `{success := true, output := "GAP session reset.", error := none}`
regardless of the prior state — and a failure of the restart handshake
propagates as an exception instead of a structured result. -/
theorem C10_reset_shape :
    ∀ (s : Session) (hs : List QEvent),
      (∀ (r : CommandResult) (s2 : Session),
        reset s hs = Except.ok (r, s2) →
        r = { success := true, output := "GAP session reset.", error := none }) ∧
      (∀ e, start (close s) hs = Except.error e → reset s hs = Except.error e) := by
  intro s hs
  constructor
  · intro r s2 hr
    unfold reset at hr
    split at hr
    · cases hr; rfl
    · exact absurd hr (by simp)
  · intro e he
    unfold reset
    rw [he]

/-- Witness for C10: with a clean handshake `reset` returns the fixed success
result; with a handshake that times out, the `TimeoutError` propagates. -/
theorem C10_witness :
    reset sampleSession [okEvent] =
      Except.ok ({ success := true, output := "GAP session reset.", error := none },
        startedSession (close sampleSession)) ∧
    ({ success := true, output := "GAP session reset.", error := none } : CommandResult) =
      { success := true, output := "GAP session reset.", error := none } ∧
    reset sampleSession [] = Except.error (TIMEOUT_MSG 30) := by
  refine ⟨rfl, ?_, ?_⟩
  · exact (C10_reset_shape sampleSession [okEvent]).1 _ (startedSession (close sampleSession)) rfl
  · exact (C10_reset_shape sampleSession []).2 (TIMEOUT_MSG 30) rfl

/-- Claim C3: on the success path (sentinel observed), the combined text
`output ++ "\n" ++ stderr` is scanned against `ERROR_PATTERNS`: presence of
any signature gives `success = false` with `error` the (stripped) scanned
text region, absence gives `success = true` with `error = none`. -/
theorem C3_error_scan :
    ∀ (s : Session) (code : String) (timeout : Option Nat) (w : World)
      (lines : List String) (rest : List QEvent) (el : Nat)
      (r : CommandResult) (s2 : Session),
      _contains_blocked code = none →
      s.proc = ProcState.running →
      send_sentinel s.defaultTimeout timeout w.stdoutEvents = SentinelResult.ok lines rest el →
      execute s code timeout w = ExecOutcome.returned r s2 →
      ((ERROR_PATTERNS.any (fun pattern =>
          pyIn pattern (pyStrip (String.intercalate "\n" lines) ++ "\n" ++
            _drain_stderr w.stderrAvail)) = true →
        r.success = false ∧
        r.error = some (pyStrip (pyStrip (String.intercalate "\n" lines) ++ "\n" ++
          _drain_stderr w.stderrAvail))) ∧
       (ERROR_PATTERNS.any (fun pattern =>
          pyIn pattern (pyStrip (String.intercalate "\n" lines) ++ "\n" ++
            _drain_stderr w.stderrAvail)) = false →
        r.success = true ∧ r.error = none)) := by
  intro s code timeout w lines rest el r s2 hb hp hsen hr
  rw [execute_ok_eq hb hp hsen] at hr
  cases hr
  constructor
  · intro hany
    rcases List.any_eq_true.mp hany with ⟨p, hpmem, hppy⟩
    have hfind : (ERROR_PATTERNS.find? (fun pattern =>
        pyIn pattern (pyStrip (String.intercalate "\n" lines) ++ "\n" ++
          _drain_stderr w.stderrAvail))).isSome :=
      List.find?_isSome.mpr ⟨p, hpmem, hppy⟩
    rcases Option.isSome_iff_exists.mp hfind with ⟨q, hq⟩
    simp only [successResult, _has_error, hq]
    exact ⟨rfl, trivial⟩
  · intro hany
    have hfind : ERROR_PATTERNS.find? (fun pattern =>
        pyIn pattern (pyStrip (String.intercalate "\n" lines) ++ "\n" ++
          _drain_stderr w.stderrAvail)) = none :=
      List.find?_eq_none.mpr (by
        intro x hx
        have := List.any_eq_false.mp hany x hx
        simpa using this)
    simp only [successResult, _has_error, hfind]
    exact ⟨rfl, trivial⟩

/-- Witness for C3: a command whose output line starts with `"Error,"` yields
a failure whose `error` is the stripped combined text. -/
theorem C3_witness :
    (successResult ["Error, oops"] []).success = false ∧
    (successResult ["Error, oops"] []).error =
      some (pyStrip (pyStrip (String.intercalate "\n" ["Error, oops"]) ++ "\n" ++
        _drain_stderr [])) :=
  (C3_error_scan sampleSession "1;" none errorWorld ["Error, oops"] [] 0
    (successResult ["Error, oops"] []) (afterWrite sampleSession "1;")
    rfl rfl rfl rfl).1 (by decide)

/-- Claim C4: when no line arrives within the resolved timeout, `execute`
terminates and restarts the subprocess and returns a failure whose error
says GAP "did not respond"; the state after the call is a freshly started
process (live child, new generation), so the next call runs clean. -/
theorem C4_timeout_restart :
    ∀ (s : Session) (code : String) (timeout : Option Nat) (w : World)
      (el : Nat) (hl : List String) (hrest : List QEvent) (hel : Nat),
      _contains_blocked code = none →
      s.proc = ProcState.running →
      send_sentinel s.defaultTimeout timeout w.stdoutEvents = SentinelResult.timedOut el →
      send_sentinel s.defaultTimeout (some 30) w.restartHandshake =
        SentinelResult.ok hl hrest hel →
      (execute s code timeout w =
        ExecOutcome.returned
          { success := false, output := "",
            error := some (TIMEOUT_MSG (pyOrNat timeout s.defaultTimeout)) }
          (startedSession (close (afterWrite s code))) ∧
       pyIn "did not respond" (TIMEOUT_MSG (pyOrNat timeout s.defaultTimeout)) = true ∧
       (startedSession (close (afterWrite s code))).proc = ProcState.running ∧
       (startedSession (close (afterWrite s code))).generation = s.generation + 1) := by
  intro s code timeout w el hl hrest hel hb hp hsen hrs
  exact ⟨execute_timeout_eq hb hp hsen hrs, timeout_msg_mentions _, rfl, rfl⟩

/-- Witness for C4: a 1-second timeout with no output restarts the session
and reports a "did not respond" failure. -/
theorem C4_witness :
    execute sampleSession "1;" (some 1) timeoutWorld =
      ExecOutcome.returned
        { success := false, output := "",
          error := some (TIMEOUT_MSG (pyOrNat (some 1) sampleSession.defaultTimeout)) }
        (startedSession (close (afterWrite sampleSession "1;"))) ∧
    pyIn "did not respond" (TIMEOUT_MSG (pyOrNat (some 1) sampleSession.defaultTimeout)) = true ∧
    (startedSession (close (afterWrite sampleSession "1;"))).proc = ProcState.running ∧
    (startedSession (close (afterWrite sampleSession "1;"))).generation =
      sampleSession.generation + 1 :=
  C4_timeout_restart sampleSession "1;" (some 1) timeoutWorld 1 [] [] 0 rfl rfl rfl rfl

/-- Claim C5 counterexample: `execute` does not forward the command text
verbatim — the command `" 1;"` is written to stdin as `"1;\n"`, its leading
blank stripped, which differs from the verbatim `" 1;" ++ "\n"`. -/
theorem C5_counterexample :
    execute sampleSession " 1;" none sampleWorld =
      ExecOutcome.returned { success := true, output := "", error := none }
        { sampleSession with stdinLog := ["1;\n", SENTINEL_CMD] } ∧
    ("1;\n" : String) ≠ " 1;" ++ "\n" := by
  refine ⟨rfl, by decide⟩

/-- Claim C5 (amended): for filter-accepted commands, `execute` writes the
command text with leading and trailing whitespace stripped, followed by one
newline, and then the sentinel command — no statement terminator is inserted
and no other modification is made, so multi-line control constructs are
forwarded unmodified apart from the outer strip. -/
theorem C5_write_stripped_verbatim :
    ∀ (s : Session) (code : String) (timeout : Option Nat) (w : World)
      (lines : List String) (rest : List QEvent) (el : Nat)
      (r : CommandResult) (s2 : Session),
      _contains_blocked code = none →
      s.proc = ProcState.running →
      send_sentinel s.defaultTimeout timeout w.stdoutEvents = SentinelResult.ok lines rest el →
      execute s code timeout w = ExecOutcome.returned r s2 →
      s2.stdinLog = s.stdinLog ++ [pyStrip code ++ "\n", SENTINEL_CMD] := by
  intro s code timeout w lines rest el r s2 hb hp hsen hr
  rw [execute_ok_eq hb hp hsen] at hr
  cases hr
  rfl

/-- Witness for C5 (amended): a multi-line `for` loop is forwarded with only
the outer whitespace stripped, followed by the sentinel command. -/
theorem C5_witness :
    (afterWrite sampleSession "for i in [1..3] do\n  Print(i);\nod;").stdinLog =
      sampleSession.stdinLog ++
        [pyStrip "for i in [1..3] do\n  Print(i);\nod;" ++ "\n", SENTINEL_CMD] :=
  C5_write_stripped_verbatim sampleSession "for i in [1..3] do\n  Print(i);\nod;" none
    sampleWorld [] [] 0 (successResult [] [])
    (afterWrite sampleSession "for i in [1..3] do\n  Print(i);\nod;") rfl rfl rfl rfl

/-- Claim C6: when the end-of-stream marker arrives before the sentinel,
`execute` returns an "unexpected termination" failure without restarting
synchronously — the handle is discarded and the generation is unchanged —
and the next `execute` call restarts at entry: running any accepted command
from the dead state is the same as running it from the freshly started
session produced by that entry restart. -/
theorem C6_terminated_lazy_restart :
    ∀ (s : Session) (code : String) (timeout : Option Nat) (w : World) (el : Nat),
      _contains_blocked code = none →
      s.proc = ProcState.running →
      send_sentinel s.defaultTimeout timeout w.stdoutEvents = SentinelResult.terminated el →
      (execute s code timeout w =
        ExecOutcome.returned { success := false, output := "", error := some TERMINATED_MSG }
          { afterWrite s code with proc := ProcState.noProcess } ∧
       ({ afterWrite s code with proc := ProcState.noProcess } : Session).generation =
         s.generation ∧
       (∀ (code2 : String) (t2 : Option Nat) (w2 : World) (s4 : Session),
          _contains_blocked code2 = none →
          start { afterWrite s code with proc := ProcState.noProcess } w2.entryHandshake =
            Except.ok s4 →
          execute { afterWrite s code with proc := ProcState.noProcess } code2 t2 w2 =
            execute s4 code2 t2 w2)) := by
  intro s code timeout w el hb hp hsen
  refine ⟨execute_terminated_eq hb hp hsen, rfl, ?_⟩
  intro code2 t2 w2 s4 hb2 hst
  have h4 : s4 = startedSession { afterWrite s code with proc := ProcState.noProcess } :=
    start_ok_eq hst
  subst h4
  unfold execute
  rw [hb2, if_neg (fun h => ProcState.noConfusion h),
    if_pos (show (startedSession { afterWrite s code with proc := ProcState.noProcess }).proc =
      ProcState.running from rfl), hst]

/-- Witness for C6: after an end-of-stream marker, the call reports an
unexpected termination with the handle discarded, and a follow-up command
from the dead state runs exactly as from the restarted session. -/
theorem C6_witness :
    execute sampleSession "1;" none termWorld =
      ExecOutcome.returned { success := false, output := "", error := some TERMINATED_MSG }
        deadSession ∧
    deadSession.generation = sampleSession.generation ∧
    execute deadSession "2;" none sampleWorld =
      execute (startedSession deadSession) "2;" none sampleWorld := by
  have h := C6_terminated_lazy_restart sampleSession "1;" none termWorld 0 rfl rfl rfl
  exact ⟨h.1, h.2.1, h.2.2 "2;" none sampleWorld (startedSession deadSession) rfl rfl⟩

theorem sentinel_ok_elapsed_le (t : Nat) :
    ∀ (events : List QEvent) (lines : List String) (rest : List QEvent) (el : Nat),
      sendSentinelLoop t events = SentinelResult.ok lines rest el →
      el ≤ t * (lines.length + 1) := by
  intro events
  induction events with
  | nil =>
    intro lines rest el h
    exact absurd h (by simp [sendSentinelLoop])
  | cons e tail ih =>
    intro lines rest el h
    unfold sendSentinelLoop at h
    split at h
    · exact absurd h (by simp)
    · rename_i hdelay
      split at h
      · exact absurd h (by simp)
      · split at h
        · cases h
          simpa using Nat.le_of_not_lt hdelay
        · cases hrec : sendSentinelLoop t tail with
          | ok ls rr el2 =>
            simp only [hrec] at h
            injection h with h1 h2 h3
            subst h1
            subst h3
            simp only [List.length_cons]
            calc e.delay + el2 ≤ t + t * (ls.length + 1) :=
                  Nat.add_le_add (Nat.le_of_not_lt hdelay) (ih ls rr el2 hrec)
              _ = t * (ls.length + 1 + 1) := by ring
          | timedOut el2 =>
            simp only [hrec] at h
            exact absurd h (by simp)
          | terminated el2 =>
            simp only [hrec] at h
            exact absurd h (by simp)

/-- Claim C7 counterexample: the claim that the total time spent waiting for
the sentinel is bounded by the timeout is false — with timeout 1, three
lines each arriving after 1 time unit keep every individual queue wait
within the timeout, so `execute` returns normally without any restart
(generation unchanged), yet the total wait is 3 > 1. -/
theorem C7_counterexample :
    send_sentinel 60 (some 1) slowWorld.stdoutEvents =
      SentinelResult.ok ["a", "b"] [] 3 ∧
    ¬ (3 ≤ pyOrNat (some 1) 60) ∧
    execute sampleSession "1;" (some 1) slowWorld =
      ExecOutcome.returned { success := true, output := "a\nb", error := none }
        (afterWrite sampleSession "1;") ∧
    (afterWrite sampleSession "1;").generation = sampleSession.generation := by
  refine ⟨rfl, by decide, rfl, rfl⟩

/-- Claim C7 (amended): for filter-accepted commands the timeout bounds each
individual wait on the stdout queue, not the total: when the sentinel loop
of `execute` returns via the sentinel, the total time spent waiting is at
most the resolved timeout times (number of accumulated output lines + 1),
and it can exceed the bare timeout when intermediate lines keep arriving;
an elapsed per-wait timeout still observably restarts the session. -/
theorem C7_wait_bound :
    ∀ (dflt : Nat) (timeout : Option Nat) (events : List QEvent)
      (lines : List String) (rest : List QEvent) (el : Nat),
      send_sentinel dflt timeout events = SentinelResult.ok lines rest el →
      el ≤ pyOrNat timeout dflt * (lines.length + 1) := by
  intro dflt timeout events lines rest el h
  exact sentinel_ok_elapsed_le (pyOrNat timeout dflt) events lines rest el h

/-- Witness for C7 (amended): the slow trace waits 3 time units in total,
within the bound 1 * (2 + 1). -/
theorem C7_witness :
    (3 : Nat) ≤ pyOrNat (some 1) 60 * ((["a", "b"] : List String).length + 1) :=
  C7_wait_bound 60 (some 1) slowWorld.stdoutEvents ["a", "b"] [] 3 rfl

/-- Claim C8: executable resolution order — a truthy explicit override is
returned unverified; otherwise a truthy environment value, unverified;
otherwise the `which`-style lookup result; otherwise the first candidate
location passing the existence and executability checks; otherwise a
"not found" failure. An empty override falls through like an absent one. -/
theorem C8_resolution_order :
    (∀ (env : Env) (g : String), ¬ g = "" →
      resolve_executable (some g) env = Except.ok g) ∧
    (∀ env : Env, resolve_executable (some "") env = resolve_executable none env) ∧
    (∀ (env : Env) (e : String), env.gapExecutableEnv = some e → ¬ e = "" →
      resolve_executable none env = Except.ok e) ∧
    (∀ (env : Env) (wp : String), truthyStr env.gapExecutableEnv = none →
      env.whichGap = some wp → ¬ wp = "" →
      resolve_executable none env = Except.ok wp) ∧
    (∀ (env : Env) (p : String), truthyStr env.gapExecutableEnv = none →
      truthyStr env.whichGap = none →
      (gapCandidates env).find? (fun path => env.isFile path && env.isExec path) = some p →
      resolve_executable none env = Except.ok p) ∧
    (∀ env : Env, truthyStr env.gapExecutableEnv = none →
      truthyStr env.whichGap = none →
      (gapCandidates env).find? (fun path => env.isFile path && env.isExec path) = none →
      resolve_executable none env = Except.error GAP_NOT_FOUND_MSG ∧
      pyIn "not found" GAP_NOT_FOUND_MSG = true) := by
  refine ⟨?_, ?_, ?_, ?_, ?_, ?_⟩
  · intro env g hg
    simp only [resolve_executable, truthyStr, if_neg hg]
  · intro env
    rfl
  · intro env e he hne
    simp only [resolve_executable, truthyStr, he, if_neg hne]
  · intro env wp henv hw hne
    simp only [resolve_executable, find_gap_executable]
    rw [henv, hw]
    simp only [truthyStr, if_neg hne]
  · intro env p henv hwhich hfind
    simp only [resolve_executable, find_gap_executable]
    rw [henv, hwhich, hfind]
    rfl
  · intro env henv hwhich hfind
    constructor
    · simp only [resolve_executable, find_gap_executable]
      rw [henv, hwhich, hfind]
      rfl
    · unfold GAP_NOT_FOUND_MSG
      exact pyIn_append_left _ (by decide)

/-- Witness for C8: each stage of the resolution order observed on concrete
environments — unverified override, unverified environment value, `which`
result, first passing candidate, and the "not found" failure. -/
theorem C8_witness :
    resolve_executable (some "/override/gap") envBare = Except.ok "/override/gap" ∧
    resolve_executable (some "") envBare = resolve_executable none envBare ∧
    resolve_executable none envVar = Except.ok "/env/gap" ∧
    resolve_executable none envWhich = Except.ok "/which/gap" ∧
    resolve_executable none envCandidate = Except.ok "/usr/bin/gap" ∧
    (resolve_executable none envBare = Except.error GAP_NOT_FOUND_MSG ∧
      pyIn "not found" GAP_NOT_FOUND_MSG = true) := by
  refine ⟨?_, ?_, ?_, ?_, ?_, ?_⟩
  · exact C8_resolution_order.1 envBare "/override/gap" (by decide)
  · exact C8_resolution_order.2.1 envBare
  · exact C8_resolution_order.2.2.1 envVar "/env/gap" rfl (by decide)
  · exact C8_resolution_order.2.2.2.1 envWhich "/which/gap" rfl rfl (by decide)
  · exact C8_resolution_order.2.2.2.2.1 envCandidate "/usr/bin/gap" rfl rfl rfl
  · exact C8_resolution_order.2.2.2.2.2 envBare rfl rfl rfl

end GapMcp
